import Mathlib

/-!
# Declaration surface of `winograd_test_util.h`

`tensorflow/lite/delegates/gpu/common/tasks/winograd_test_util.h` holds no
function bodies: between its include guard it has two includes and, inside
`namespace tflite { namespace gpu {`, four function declarations.

The development has two layers.

* The declarations themselves, transcribed line by line from the header
  (`winograd_test_util_h`).
* What a declared type denotes (`CppType.denote`): `T*` is a nullable pointer
  (`Ptr`) and `T&` is an object that is always there. The two classes the
  header names, `TestExecutionEnvironment` and `absl::Status`, are defined
  outside it and are left as type parameters.
-/

namespace tflite.gpu

/-- The type expressions that can stand in a declaration of the header, built
from the two type names the header uses. -/
inductive CppType where
  /-- The return type `absl::Status`. -/
  | abslStatus
  /-- The class name `TestExecutionEnvironment`. -/
  | testExecutionEnvironment
  /-- The pointer type `T*`. -/
  | pointer (pointee : CppType)
  /-- The reference type `T&`. -/
  | lvalueReference (referent : CppType)
  deriving DecidableEq, Repr

/-- One parameter of a function declaration: its type and its name. -/
structure Parameter where
  type : CppType
  name : String
  deriving DecidableEq, Repr

/-- A namespace-scope declaration: a function, a type, or a constant. -/
inductive Declaration where
  | function (returnType : CppType) (name : String) (parameters : List Parameter)
  | type (name : String)
  | constant (type : CppType) (name : String)
  deriving DecidableEq, Repr

namespace Declaration

/-- The declared name. -/
def name : Declaration → String
  | function _ n _ => n
  | type n => n
  | constant _ n => n

/-- Whether the declaration declares a function. -/
def isFunction : Declaration → Bool
  | function _ _ _ => true
  | _ => false

/-- The parameter list of a function declaration (empty for the others). -/
def parameters : Declaration → List Parameter
  | function _ _ ps => ps
  | _ => []

/-- The return type of a function declaration, if it is one. -/
def returnType? : Declaration → Option CppType
  | function r _ _ => some r
  | _ => none

end Declaration

/-- A header file: its include guard, its includes, the namespace its
declarations are in, and the declarations in source order. -/
structure Header where
  includeGuard : String
  includes : List String
  enclosingNamespace : List String
  declarations : List Declaration
  deriving DecidableEq, Repr

/-- The header `winograd_test_util.h`, lines 16 to 33. -/
def winograd_test_util_h : Header where
  includeGuard := "TENSORFLOW_LITE_DELEGATES_GPU_COMMON_TASKS_WINOGRAD_TEST_UTIL_H_"
  includes :=
    [ "tensorflow/lite/delegates/gpu/common/status.h",
      "tensorflow/lite/delegates/gpu/common/task/testing_util.h" ]
  enclosingNamespace := ["tflite", "gpu"]
  declarations :=
    [ .function .abslStatus "Winograd4x4To36TileX6Test"
        [⟨.pointer .testExecutionEnvironment, "env"⟩],
      .function .abslStatus "Winograd36To4x4Tile4x1Test"
        [⟨.pointer .testExecutionEnvironment, "env"⟩],
      .function .abslStatus "Winograd4x4To36Test"
        [⟨.pointer .testExecutionEnvironment, "env"⟩],
      .function .abslStatus "Winograd36To4x4Test"
        [⟨.pointer .testExecutionEnvironment, "env"⟩] ]

/-- A value of a C++ pointer type `T*`: the null pointer, or the address of an
object. -/
inductive Ptr (T : Type) where
  | null
  | addressOf (object : T)
  deriving DecidableEq, Repr

namespace CppType

/-- The values of a type expression, given the type `Env` of test-execution
environments and the type `Status` of statuses (both classes are defined
outside the header, in `testing_util.h` and behind `status.h`): a pointer is
nullable, a reference is the object itself. -/
def denote (Env Status : Type) : CppType → Type
  | abslStatus => Status
  | testExecutionEnvironment => Env
  | pointer t => Ptr (denote Env Status t)
  | lvalueReference t => denote Env Status t

/-- Whether a value of a type expression has its object behind it: a null
pointer has none, the address of an object has the object, and a reference,
a status or an environment is the object itself. -/
def present (Env Status : Type) : (t : CppType) → denote Env Status t → Bool
  | abslStatus, _ => true
  | testExecutionEnvironment, _ => true
  | pointer t, v =>
    match (v : Ptr (denote Env Status t)) with
    | .null => false
    | .addressOf x => present Env Status t x
  | lvalueReference t, v => present Env Status t v

/-- Whether a type expression is a reference type `T&`. -/
def isReference : CppType → Bool
  | lvalueReference _ => true
  | _ => false

end CppType

/-- The shape the four entry points share: a function returning `absl::Status`
with the single parameter `TestExecutionEnvironment* env`. -/
def isEntryPoint (d : Declaration) : Prop :=
  d.isFunction = true ∧
  d.returnType? = some .abslStatus ∧
  d.parameters.map Parameter.type = [.pointer .testExecutionEnvironment]

instance (d : Declaration) : Decidable (isEntryPoint d) := by
  unfold isEntryPoint; infer_instance

/-! ## The declaration surface -/

/-- C1: the header declares exactly four names, `Winograd4x4To36TileX6Test`,
`Winograd36To4x4Tile4x1Test`, `Winograd4x4To36Test` and `Winograd36To4x4Test`,
in `namespace tflite::gpu`, and every declaration in it is a function that
takes exactly one argument, a pointer to a test-execution environment, and
returns a status: no type, constant or further function is declared. -/
theorem winograd_test_util_h_surface :
    winograd_test_util_h.declarations.map Declaration.name =
      ["Winograd4x4To36TileX6Test", "Winograd36To4x4Tile4x1Test",
        "Winograd4x4To36Test", "Winograd36To4x4Test"] ∧
    winograd_test_util_h.enclosingNamespace = ["tflite", "gpu"] ∧
    ∀ d ∈ winograd_test_util_h.declarations,
      isEntryPoint d ∧ d.parameters.length = 1 := by
  refine ⟨rfl, rfl, ?_⟩
  decide

/-- C1 at the third declaration, `Winograd4x4To36Test`. -/
theorem winograd_test_util_h_surface_witness :
    Declaration.function .abslStatus "Winograd4x4To36Test"
        [⟨.pointer .testExecutionEnvironment, "env"⟩] ∈
      winograd_test_util_h.declarations ∧
    isEntryPoint (Declaration.function .abslStatus "Winograd4x4To36Test"
        [⟨.pointer .testExecutionEnvironment, "env"⟩]) :=
  ⟨by decide, (winograd_test_util_h_surface.2.2 _ (by decide)).1⟩

/-! ## How the environment is passed -/

/-- C3 as stated fails on the header: it is not so that every parameter of
every declared function has a reference type, and it is not so that every
argument the parameter type admits has an environment behind it (the first
declaration, `Winograd4x4To36TileX6Test(TestExecutionEnvironment* env)`, and
the null pointer show both). -/
theorem entry_point_parameter_not_reference :
    (¬ ∀ d ∈ winograd_test_util_h.declarations, ∀ p ∈ d.parameters,
        p.type.isReference = true) ∧
    (¬ ∀ d ∈ winograd_test_util_h.declarations, ∀ p ∈ d.parameters,
        ∀ v : p.type.denote Unit Unit, CppType.present Unit Unit p.type v = true) := by
  constructor
  · intro h
    have h1 := h (.function .abslStatus "Winograd4x4To36TileX6Test"
      [⟨.pointer .testExecutionEnvironment, "env"⟩]) (by decide)
      ⟨.pointer .testExecutionEnvironment, "env"⟩ (by decide)
    exact Bool.false_ne_true h1
  · intro h
    have h1 := h (.function .abslStatus "Winograd4x4To36TileX6Test"
      [⟨.pointer .testExecutionEnvironment, "env"⟩]) (by decide)
      ⟨.pointer .testExecutionEnvironment, "env"⟩ (by decide) Ptr.null
    exact Bool.false_ne_true h1

/-- C3 (amended): each of the four entry points takes its one parameter,
`env`, as a pointer to a test-execution environment, not as a reference. Its
arguments are the values of `Ptr Env`: the null pointer, which has no
environment behind it, and the addresses of environments, which are the
arguments that have one. This holds whatever the environment and status
classes are. -/
theorem entry_point_parameter_is_nullable_pointer (Env Status : Type) :
    (∀ d ∈ winograd_test_util_h.declarations,
      d.parameters = [⟨.pointer .testExecutionEnvironment, "env"⟩]) ∧
    CppType.isReference (.pointer .testExecutionEnvironment) = false ∧
    CppType.denote Env Status (.pointer .testExecutionEnvironment) = Ptr Env ∧
    CppType.present Env Status (.pointer .testExecutionEnvironment) Ptr.null = false ∧
    ∀ v : Ptr Env,
      CppType.present Env Status (.pointer .testExecutionEnvironment) v = true ↔
        ∃ e, v = .addressOf e := by
  refine ⟨by decide, rfl, rfl, rfl, ?_⟩
  intro v
  cases v with
  | null => exact ⟨fun h => absurd h Bool.false_ne_true, fun ⟨_, h⟩ => by cases h⟩
  | addressOf e => exact ⟨fun _ => ⟨e, rfl⟩, fun _ => rfl⟩

/-- C3 (amended) at the last declaration, `Winograd36To4x4Test`, over
one-element environment and status types. -/
theorem entry_point_parameter_is_nullable_pointer_witness :
    Declaration.function .abslStatus "Winograd36To4x4Test"
        [⟨.pointer .testExecutionEnvironment, "env"⟩] ∈
      winograd_test_util_h.declarations ∧
    (Declaration.function .abslStatus "Winograd36To4x4Test"
        [⟨.pointer .testExecutionEnvironment, "env"⟩]).parameters =
      [⟨.pointer .testExecutionEnvironment, "env"⟩] :=
  ⟨by decide, (entry_point_parameter_is_nullable_pointer Unit Unit).1 _ (by decide)⟩

end tflite.gpu
